import Mathlib

/-!
Verification of the `GuessLexer` code-language/framework detection engine
(`guess_lexer.py`).

The engine is embedded shallowly:

* Regular-expression match counting (`re.findall(pattern, code,
  re.MULTILINE | re.IGNORECASE)` followed by `len`) is the only piece of
  behaviour delegated to the Python standard library.  It is abstracted as
  an oracle `rc : String → String → Nat` mapping `(pattern, code)` to the
  number of non-overlapping case-insensitive multiline matches.  All
  universally quantified theorems below hold for every oracle, hence in
  particular for the real regex engine.  Concrete witnesses fix an oracle
  whose values on the relevant `(pattern, text)` pairs are the actual
  `re.findall` counts (checked by hand; the witness texts are chosen so
  that almost all counts are zero).
* Python `float` arithmetic is modelled by exact rational arithmetic `ℚ`.
* Keyword containment (`keyword.lower() in code.lower()`), filename
  extension splitting (`os.path.splitext`, POSIX), whitespace stripping
  (`str.strip`, ASCII subset) and the full pattern/keyword/extension
  tables are embedded concretely.
* Python `dict`s preserve insertion order; they are embedded as
  association lists in the same order, and `max(keys, key=...)` (which
  returns the first key attaining the maximum) as a fold keeping the
  earlier entry on ties.
-/

attribute [local semireducible] Rat.mul Rat.add Rat.sub Rat.inv

/-- ASCII whitespace as recognised by Python `str.strip()` (the Unicode
whitespace code points are irrelevant to everything proved below). -/
def pyIsSpace (c : Char) : Bool :=
  c = ' ' || c = '\t' || c = '\n' || c = '\r' || c = '\x0b' || c = '\x0c'

/-- `not code.strip()` in `analyze_code` (guess_lexer.py line 532): the text
is empty or consists of whitespace only. -/
def stripEmpty (code : String) : Bool :=
  code.data.all pyIsSpace

/-- `startsWithSub hay needle`: `needle` is a prefix of `hay` (character list
form). -/
def startsWithSub : List Char → List Char → Bool
  | _, [] => true
  | [], _ :: _ => false
  | c :: cs, d :: ds => c = d && startsWithSub cs ds

/-- `hasSub hay needle`: `needle` occurs contiguously inside `hay`; this is
Python's substring test `needle in hay`. -/
def hasSub : List Char → List Char → Bool
  | _, [] => true
  | [], _ :: _ => false
  | c :: cs, d :: ds => startsWithSub (c :: cs) (d :: ds) || hasSub cs (d :: ds)

/-- ASCII lowercasing of one character, as `str.lower()` acts on ASCII (all
table keywords and extensions are ASCII). -/
def pyLower (c : Char) : Char :=
  if 65 ≤ c.toNat ∧ c.toNat ≤ 90 then Char.ofNat (c.toNat + 32) else c

/-- `keyword.lower() in code.lower()` (guess_lexer.py lines 607, 648). -/
def containsCI (code kw : String) : Bool :=
  hasSub (code.data.map pyLower) (kw.data.map pyLower)

/-- Index of the last occurrence of `c` in `l`, or `-1` when absent; this is
Python's `str.rfind`. -/
def lastIdx (l : List Char) (c : Char) : Int :=
  (l.foldl (fun (st : Int × Int) d => (if d = c then st.2 else st.1, st.2 + 1)) (-1, 0)).1

/-- The extension component of `os.path.splitext` (POSIX rules, as used by
`_get_extension_hint`): the suffix starting at the last dot that lies after
the last `/`, except that a leading run of dots of the base name is not an
extension. -/
def splitext_ext (p : String) : String :=
  let l := p.data
  let sepIndex := lastIdx l '/'
  let dotIndex := lastIdx l '.'
  if sepIndex < dotIndex then
    let base := (l.drop (sepIndex + 1).toNat).take (dotIndex - sepIndex - 1).toNat
    if base.any (fun c => c ≠ '.') then String.mk (l.drop dotIndex.toNat) else ""
  else ""

/-- One language's detection rules: entry value of the `language_patterns`
table built by `_initialize_patterns` (guess_lexer.py lines 39-306). -/
structure LangPatterns where
  keywords : List String
  patterns : List String
  anti_patterns : List String
  weight : ℚ
deriving DecidableEq

/-- One framework's detection rules: entry value of the `framework_patterns`
table built by `_initialize_framework_patterns` (lines 308-497). -/
structure FrameworkPatterns where
  language : String
  patterns : List String
  keywords : List String
  weight : ℚ
deriving DecidableEq

/-- `DetectionResult` (guess_lexer.py lines 15-25). -/
structure DetectionResult where
  language : String
  confidence : ℚ
  framework : Option String
  evidence : List String
deriving DecidableEq

/-- The language table returned at guess_lexer.py lines 41-306 and stored by
`__init__` as `self.language_patterns`, in dict insertion order. -/
def language_patterns : List (String × LangPatterns) := [
  ("python",
   { keywords := ["def",
                 "class",
                 "import",
                 "from",
                 "if __name__",
                 "elif",
                 "lambda",
                 "yield"],
     patterns := ["^\\s*def\\s+\\w+\\s*\\(",
                 "^\\s*class\\s+\\w+",
                 "^\\s*import\\s+\\w+",
                 "^\\s*from\\s+\\w+\\s+import",
                 "if\\s+__name__\\s*==\\s*[\\\x27\"]__main__[\\\x27\"]",
                 "^\\s*#.*python",
                 "print\\s*\\(",
                 "^\\s*@\\w+"],
     anti_patterns := ["console\\.log",
                      "function\\s*\\(",
                      "var\\s+\\w+"],
     weight := 1 }),
  ("javascript",
   { keywords := ["function",
                 "var",
                 "let",
                 "const",
                 "console.log",
                 "require",
                 "module.exports"],
     patterns := ["function\\s+\\w+\\s*\\(",
                 "console\\.log\\s*\\(",
                 "var\\s+\\w+\\s*=",
                 "let\\s+\\w+\\s*=",
                 "const\\s+\\w+\\s*=",
                 "require\\s*\\([\\\x27\"]",
                 "module\\.exports",
                 "=>",
                 "\\.then\\s*\\(",
                 "async\\s+function"],
     anti_patterns := ["def\\s+\\w+",
                      "class\\s+\\w+.*:",
                      "import\\s+\\w+"],
     weight := 1 }),
  ("typescript",
   { keywords := ["interface",
                 "type",
                 "enum",
                 "namespace",
                 "declare"],
     patterns := ["interface\\s+\\w+",
                 "type\\s+\\w+\\s*=",
                 "enum\\s+\\w+",
                 ":\\s*\\w+(\\[\\])?(\\s*\\|\\s*\\w+)*\\s*[=;]",
                 "<\\w+>",
                 "declare\\s+",
                 "namespace\\s+\\w+"],
     anti_patterns := [],
     weight := 6/5 }),
  ("java",
   { keywords := ["public class",
                 "private",
                 "protected",
                 "static",
                 "void",
                 "import java"],
     patterns := ["public\\s+class\\s+\\w+",
                 "private\\s+\\w+\\s+\\w+",
                 "protected\\s+\\w+\\s+\\w+",
                 "public\\s+static\\s+void\\s+main",
                 "import\\s+java\\.",
                 "@\\w+\\s*\\n\\s*public",
                 "System\\.out\\.println"],
     anti_patterns := ["def\\s+\\w+",
                      "function\\s+\\w+"],
     weight := 1 }),
  ("csharp",
   { keywords := ["using",
                 "namespace",
                 "class",
                 "static void Main",
                 "public",
                 "private"],
     patterns := ["using\\s+\\w+;",
                 "namespace\\s+\\w+",
                 "public\\s+class\\s+\\w+",
                 "static\\s+void\\s+Main",
                 "Console\\.WriteLine",
                 "\\[assembly:",
                 "#region"],
     anti_patterns := ["import\\s+",
                      "def\\s+\\w+"],
     weight := 1 }),
  ("cpp",
   { keywords := ["#include",
                 "using namespace",
                 "int main",
                 "std::",
                 "class"],
     patterns := ["#include\\s*<\\w+>",
                 "using\\s+namespace\\s+std",
                 "int\\s+main\\s*\\(",
                 "std::\\w+",
                 "cout\\s*<<",
                 "cin\\s*>>",
                 "class\\s+\\w+\\s*\x7b"],
     anti_patterns := ["def\\s+\\w+",
                      "import\\s+"],
     weight := 1 }),
  ("c",
   { keywords := ["#include",
                 "int main",
                 "printf",
                 "scanf",
                 "malloc"],
     patterns := ["#include\\s*<\\w+\\.h>",
                 "int\\s+main\\s*\\(",
                 "printf\\s*\\(",
                 "scanf\\s*\\(",
                 "malloc\\s*\\(",
                 "free\\s*\\("],
     anti_patterns := ["class\\s+\\w+",
                      "using\\s+namespace",
                      "def\\s+\\w+"],
     weight := 1 }),
  ("go",
   { keywords := ["package",
                 "import",
                 "func",
                 "var",
                 "const",
                 "type"],
     patterns := ["package\\s+\\w+",
                 "import\\s*\\(",
                 "func\\s+\\w+\\s*\\(",
                 "func\\s+main\\s*\\(\\s*\\)",
                 "fmt\\.Print",
                 ":=",
                 "go\\s+\\w+\\("],
     anti_patterns := ["def\\s+\\w+",
                      "class\\s+\\w+"],
     weight := 1 }),
  ("rust",
   { keywords := ["fn",
                 "let",
                 "mut",
                 "impl",
                 "trait",
                 "use"],
     patterns := ["fn\\s+\\w+\\s*\\(",
                 "let\\s+\\w+\\s*=",
                 "let\\s+mut\\s+\\w+",
                 "impl\\s+\\w+",
                 "trait\\s+\\w+",
                 "use\\s+\\w+::",
                 "println!\\s*\\(",
                 "#\\[derive\\("],
     anti_patterns := ["def\\s+\\w+",
                      "function\\s+\\w+",
                      "import\\s+[\\\x27\"]package:",
                      "class\\s+\\w+\\s+extends",
                      "StatelessWidget",
                      "StatefulWidget"],
     weight := 1 }),
  ("ruby",
   { keywords := ["def",
                 "class",
                 "end",
                 "require",
                 "puts",
                 "attr_accessor"],
     patterns := ["def\\s+\\w+",
                 "class\\s+\\w+",
                 "end\\s*$",
                 "require\\s+[\\\x27\"]",
                 "puts\\s+",
                 "attr_accessor\\s+",
                 "@\\w+",
                 "=>\\s*"],
     anti_patterns := ["def\\s+\\w+\\s*\\(.*\\):",
                      "import\\s+"],
     weight := 1 }),
  ("php",
   { keywords := ["<?php",
                 "function",
                 "class",
                 "echo",
                 "$",
                 "require_once"],
     patterns := ["<\\?php",
                 "function\\s+\\w+\\s*\\(",
                 "class\\s+\\w+",
                 "echo\\s+",
                 "\\$\\w+",
                 "require_once\\s+",
                 "->\\w+",
                 "public\\s+function"],
     anti_patterns := ["def\\s+\\w+",
                      "import\\s+"],
     weight := 1 }),
  ("swift",
   { keywords := ["func",
                 "var",
                 "let",
                 "import",
                 "class",
                 "struct"],
     patterns := ["func\\s+\\w+\\s*\\(",
                 "var\\s+\\w+\\s*:",
                 "let\\s+\\w+\\s*=",
                 "import\\s+\\w+",
                 "class\\s+\\w+\\s*:",
                 "struct\\s+\\w+",
                 "print\\s*\\(",
                 "@\\w+\\s*\\n"],
     anti_patterns := ["def\\s+\\w+",
                      "function\\s+\\w+",
                      "import\\s+[\\\x27\"]package:",
                      "StatelessWidget",
                      "StatefulWidget"],
     weight := 1 }),
  ("kotlin",
   { keywords := ["fun",
                 "val",
                 "var",
                 "class",
                 "object",
                 "package"],
     patterns := ["fun\\s+\\w+\\s*\\(",
                 "val\\s+\\w+\\s*=",
                 "var\\s+\\w+\\s*=",
                 "class\\s+\\w+",
                 "object\\s+\\w+",
                 "package\\s+\\w+",
                 "println\\s*\\("],
     anti_patterns := ["def\\s+\\w+",
                      "function\\s+\\w+",
                      "import\\s+[\\\x27\"]package:",
                      "StatelessWidget",
                      "StatefulWidget"],
     weight := 1 }),
  ("sql",
   { keywords := ["SELECT",
                 "FROM",
                 "WHERE",
                 "INSERT",
                 "UPDATE",
                 "DELETE",
                 "CREATE"],
     patterns := ["SELECT\\s+.*FROM",
                 "INSERT\\s+INTO",
                 "UPDATE\\s+\\w+\\s+SET",
                 "DELETE\\s+FROM",
                 "CREATE\\s+TABLE",
                 "ALTER\\s+TABLE",
                 "DROP\\s+TABLE",
                 "WHERE\\s+\\w+\\s*="],
     anti_patterns := ["def\\s+\\w+",
                      "function\\s+\\w+",
                      "class\\s+\\w+"],
     weight := 1 }),
  ("html",
   { keywords := ["<html>",
                 "<head>",
                 "<body>",
                 "<div>",
                 "<script>"],
     patterns := ["<!DOCTYPE\\s+html>",
                 "<html.*>",
                 "<head>",
                 "<body.*>",
                 "<div.*>",
                 "<script.*>",
                 "<link\\s+.*rel=",
                 "<meta\\s+.*>"],
     anti_patterns := ["def\\s+\\w+",
                      "function\\s+\\w+(?!\\s*\\()"],
     weight := 1 }),
  ("css",
   { keywords := ["\x7b",
                 "\x7d",
                 ":",
                 ";",
                 "@media",
                 "@import"],
     patterns := ["\\w+\\s*\\\x7b[^\x7d]*\\\x7d",
                 "@media\\s*\\(",
                 "@import\\s+",
                 "#\\w+\\s*\\\x7b",
                 "\\.\\w+\\s*\\\x7b",
                 ":\\w+\\s*\\\x7b",
                 "\\w+:\\s*\\w+;"],
     anti_patterns := ["def\\s+\\w+",
                      "function\\s+\\w+",
                      "class\\s+\\w+(?!\\s*\\\x7b)"],
     weight := 1 }),
  ("dart",
   { keywords := ["void",
                 "main",
                 "class",
                 "import",
                 "library",
                 "part",
                 "abstract",
                 "extends",
                 "implements"],
     patterns := ["void\\s+main\\s*\\(\\s*\\)",
                 "import\\s+[\\\x27\"]package:",
                 "import\\s+[\\\x27\"]dart:",
                 "class\\s+\\w+\\s+extends\\s+\\w+",
                 "class\\s+\\w+\\s+implements\\s+\\w+",
                 "abstract\\s+class\\s+\\w+",
                 "library\\s+\\w+;",
                 "part\\s+of\\s+\\w+;",
                 "part\\s+[\\\x27\"][^\\\x27\\\"]+\\.dart[\\\x27\"];",
                 "@override",
                 "final\\s+\\w+",
                 "const\\s+\\w+",
                 "var\\s+\\w+\\s*=",
                 "\\w+\\?\\s+\\w+",
                 "\\w+<\\w+>",
                 "List<\\w+>",
                 "Map<\\w+,\\s*\\w+>",
                 "Set<\\w+>",
                 "Future<\\w+>",
                 "Stream<\\w+>",
                 "async\\s*\\\x7b",
                 "await\\s+\\w+",
                 "=>\\s*\\w+",
                 "print\\s*\\("],
     anti_patterns := ["def\\s+\\w+",
                      "function\\s+\\w+",
                      "console\\.log",
                      "System\\.out\\.println"],
     weight := 1 })
]

/-- The framework table returned at guess_lexer.py lines 310-497 and stored
by `__init__` as `self.framework_patterns`, in dict insertion order. -/
def framework_patterns : List (String × FrameworkPatterns) := [
  ("react",
   { language := "javascript",
     patterns := ["import\\s+.*from\\s+[\\\x27\"]react[\\\x27\"]",
                 "React\\.Component",
                 "useState\\s*\\(",
                 "useEffect\\s*\\(",
                 "jsx",
                 "className=",
                 "<\\w+.*>.*</\\w+>",
                 "return\\s*\\("],
     keywords := ["React",
                 "useState",
                 "useEffect",
                 "Component",
                 "jsx"],
     weight := 6/5 }),
  ("vue",
   { language := "javascript",
     patterns := ["import\\s+.*from\\s+[\\\x27\"]vue[\\\x27\"]",
                 "Vue\\.component",
                 "<template>",
                 "<script>",
                 "v-if=",
                 "v-for=",
                 "@click="],
     keywords := ["Vue",
                 "template",
                 "v-if",
                 "v-for"],
     weight := 6/5 }),
  ("angular",
   { language := "typescript",
     patterns := ["import\\s+.*from\\s+[\\\x27\"]@angular",
                 "@Component\\s*\\(",
                 "@Injectable\\s*\\(",
                 "@NgModule\\s*\\(",
                 "selector:\\s*[\\\x27\"]",
                 "templateUrl:\\s*[\\\x27\"]"],
     keywords := ["@Component",
                 "@Injectable",
                 "@NgModule",
                 "Angular"],
     weight := 6/5 }),
  ("django",
   { language := "python",
     patterns := ["from\\s+django",
                 "import\\s+django",
                 "models\\.Model",
                 "HttpResponse",
                 "render\\s*\\(",
                 "urlpatterns\\s*=",
                 "@login_required"],
     keywords := ["django",
                 "models",
                 "HttpResponse",
                 "urlpatterns"],
     weight := 6/5 }),
  ("flask",
   { language := "python",
     patterns := ["from\\s+flask",
                 "import\\s+flask",
                 "Flask\\s*\\(",
                 "@app\\.route",
                 "render_template\\s*\\(",
                 "request\\.form"],
     keywords := ["Flask",
                 "@app.route",
                 "render_template"],
     weight := 6/5 }),
  ("fastapi",
   { language := "python",
     patterns := ["from\\s+fastapi",
                 "import\\s+fastapi",
                 "FastAPI\\s*\\(",
                 "@app\\.(get|post|put|delete)",
                 "Pydantic",
                 "BaseModel"],
     keywords := ["FastAPI",
                 "Pydantic",
                 "BaseModel"],
     weight := 6/5 }),
  ("express",
   { language := "javascript",
     patterns := ["require\\s*\\([\\\x27\"]express[\\\x27\"]",
                 "import\\s+.*from\\s+[\\\x27\"]express[\\\x27\"]",
                 "app\\.get\\s*\\(",
                 "app\\.post\\s*\\(",
                 "app\\.listen\\s*\\(",
                 "express\\s*\\(\\s*\\)"],
     keywords := ["express",
                 "app.get",
                 "app.post",
                 "app.listen"],
     weight := 6/5 }),
  ("spring",
   { language := "java",
     patterns := ["import\\s+org\\.springframework",
                 "@RestController",
                 "@Service",
                 "@Repository",
                 "@Autowired",
                 "@RequestMapping",
                 "@GetMapping"],
     keywords := ["@RestController",
                 "@Service",
                 "@Autowired",
                 "springframework"],
     weight := 6/5 }),
  ("flutter",
   { language := "dart",
     patterns := ["import\\s+[\\\x27\"]package:flutter/",
                 "import\\s+[\\\x27\"]package:flutter/material\\.dart[\\\x27\"]",
                 "import\\s+[\\\x27\"]package:flutter/cupertino\\.dart[\\\x27\"]",
                 "import\\s+[\\\x27\"]package:flutter/widgets\\.dart[\\\x27\"]",
                 "class\\s+\\w+\\s+extends\\s+StatelessWidget",
                 "class\\s+\\w+\\s+extends\\s+StatefulWidget",
                 "class\\s+\\w+\\s+extends\\s+State<\\w+>",
                 "Widget\\s+build\\s*\\(",
                 "@override\\s+Widget\\s+build",
                 "MaterialApp\\s*\\(",
                 "CupertinoApp\\s*\\(",
                 "Scaffold\\s*\\(",
                 "AppBar\\s*\\(",
                 "Container\\s*\\(",
                 "Column\\s*\\(",
                 "Row\\s*\\(",
                 "Text\\s*\\(",
                 "RaisedButton\\s*\\(",
                 "ElevatedButton\\s*\\(",
                 "TextButton\\s*\\(",
                 "OutlinedButton\\s*\\(",
                 "FloatingActionButton\\s*\\(",
                 "ListView\\s*\\(",
                 "GridView\\s*\\(",
                 "Stack\\s*\\(",
                 "Positioned\\s*\\(",
                 "Padding\\s*\\(",
                 "Margin\\s*\\(",
                 "SizedBox\\s*\\(",
                 "Expanded\\s*\\(",
                 "Flexible\\s*\\(",
                 "Navigator\\.\\w+",
                 "setState\\s*\\(",
                 "initState\\s*\\(",
                 "dispose\\s*\\(",
                 "didChangeDependencies\\s*\\(",
                 "runApp\\s*\\(",
                 "MaterialPageRoute\\s*\\(",
                 "CupertinoPageRoute\\s*\\(",
                 "Theme\\.\\w+",
                 "MediaQuery\\.\\w+",
                 "ValueNotifier<\\w+>",
                 "ValueListenableBuilder<\\w+>",
                 "StreamBuilder<\\w+>",
                 "FutureBuilder<\\w+>",
                 "AnimationController\\s*\\(",
                 "SingleTickerProviderStateMixin",
                 "TickerProviderStateMixin",
                 "GestureDetector\\s*\\(",
                 "InkWell\\s*\\(",
                 "onTap:\\s*\\(",
                 "onPressed:\\s*\\(",
                 "CrossAxisAlignment\\.\\w+",
                 "MainAxisAlignment\\.\\w+",
                 "TextAlign\\.\\w+",
                 "FontWeight\\.\\w+",
                 "Colors\\.\\w+",
                 "Icons\\.\\w+",
                 "EdgeInsets\\.\\w+",
                 "BorderRadius\\.\\w+",
                 "Decoration\\s*\\(",
                 "BoxDecoration\\s*\\("],
     keywords := ["Flutter",
                 "StatelessWidget",
                 "StatefulWidget",
                 "Widget",
                 "build",
                 "MaterialApp",
                 "CupertinoApp",
                 "Scaffold",
                 "AppBar",
                 "Container",
                 "Column",
                 "Row",
                 "Text",
                 "ElevatedButton",
                 "FloatingActionButton",
                 "ListView",
                 "GridView",
                 "Stack",
                 "Positioned",
                 "Navigator",
                 "setState",
                 "initState",
                 "dispose",
                 "runApp",
                 "Theme",
                 "MediaQuery",
                 "StreamBuilder",
                 "FutureBuilder",
                 "AnimationController",
                 "GestureDetector",
                 "CrossAxisAlignment",
                 "MainAxisAlignment",
                 "Colors",
                 "Icons"],
     weight := 13/10 })
]

/-- The extension table returned at guess_lexer.py lines 501-519 and stored
by `__init__` as `self.file_extensions`, in dict insertion order. -/
def file_extensions : List (String × List String) := [
  ("python", [".py",
 ".pyw",
 ".pyx"]),
  ("javascript", [".js",
 ".mjs",
 ".cjs"]),
  ("typescript", [".ts",
 ".tsx"]),
  ("java", [".java"]),
  ("csharp", [".cs"]),
  ("cpp", [".cpp",
 ".cxx",
 ".cc",
 ".c++"]),
  ("c", [".c",
 ".h"]),
  ("go", [".go"]),
  ("rust", [".rs"]),
  ("ruby", [".rb"]),
  ("php", [".php"]),
  ("swift", [".swift"]),
  ("kotlin", [".kt",
 ".kts"]),
  ("sql", [".sql"]),
  ("html", [".html",
 ".htm"]),
  ("css", [".css"]),
  ("dart", [".dart"])
]
/-- Loop `for pattern in patterns['patterns']` of `_score_language`
(guess_lexer.py lines 597-602), threading the `(pattern_matches, evidence)`
state; `rc` is the `re.findall` count oracle. -/
def pattern_loop (rc : String → String → Nat) (code : String) :
    List String → Nat × List String → Nat × List String
  | [], st => st
  | p :: rest, (pm, ev) =>
    let n := rc p code
    if 0 < n then
      pattern_loop rc code rest
        (pm + n, ev ++ ["Pattern match: " ++ p ++ " (" ++ toString n ++ " times)"])
    else
      pattern_loop rc code rest (pm, ev)

/-- Loop `for keyword in patterns['keywords']` of `_score_language`
(lines 605-609), threading the `(keyword_matches, evidence)` state. -/
def keyword_loop (code : String) :
    List String → Nat × List String → Nat × List String
  | [], st => st
  | k :: rest, (km, ev) =>
    if containsCI code k then
      keyword_loop code rest (km + 1, ev ++ ["Keyword found: " ++ k])
    else
      keyword_loop code rest (km, ev)

/-- Loop `for anti_pattern in patterns.get('anti_patterns', [])` of
`_score_language` (lines 612-617). -/
def anti_pattern_loop (rc : String → String → Nat) (code : String) :
    List String → Nat × List String → Nat × List String
  | [], st => st
  | a :: rest, (am, ev) =>
    let n := rc a code
    if 0 < n then
      anti_pattern_loop rc code rest
        (am + n, ev ++ ["Anti-pattern found: " ++ a ++ " (-" ++ toString n ++ ")"])
    else
      anti_pattern_loop rc code rest (am, ev)

/-- `_score_language` (guess_lexer.py lines 591-624): score one language's
pattern set against the text and collect evidence. -/
def score_language (rc : String → String → Nat) (code : String) (ps : LangPatterns) :
    ℚ × List String :=
  let st1 := pattern_loop rc code ps.patterns (0, [])
  let st2 := keyword_loop code ps.keywords (0, st1.2)
  let st3 := anti_pattern_loop rc code ps.anti_patterns (0, st2.2)
  let base_score : ℚ := ((st1.1 : ℚ) * (6/10) + (st2.1 : ℚ) * (4/10)) * ps.weight
  let penalty : ℚ := (st3.1 : ℚ) * (3/10)
  (max 0 (base_score - penalty), st3.2)

/-- `_get_extension_hint` (guess_lexer.py lines 583-589): first language (in
table order) owning the lowercased filename's extension. -/
def get_extension_hint (filename : String) : Option String :=
  let ext := splitext_ext (String.mk (filename.data.map pyLower))
  (file_extensions.find? (fun le => le.2.contains ext)).map (fun le => le.1)

/-- The language score/evidence map built by the loop at guess_lexer.py
lines 544-548: languages scoring `> 0`, in table (= dict insertion) order. -/
def score_map (rc : String → String → Nat) (code : String) :
    List (String × ℚ × List String) :=
  (language_patterns.map (fun lp => (lp.1, score_language rc code lp.2))).filter
    (fun x => 0 < x.2.1)

/-- The two mutation lines 552-553 of `analyze_code` viewed as a function on
one score-map entry: the entry of the hinted language `h` gets its score
multiplied by `1.5` and a hint evidence line recording the filename `f`
appended; every other entry is unchanged. -/
def hint_bonus (f h : String) (x : String × ℚ × List String) : String × ℚ × List String :=
  if x.1 = h then (x.1, x.2.1 * (3/2), x.2.2 ++ ["File extension hint: " ++ f]) else x

/-- The extension-hint bonus (guess_lexer.py lines 536-538 and 550-553): when
a filename is supplied (and truthy, i.e. nonempty) and its extension maps to
a language present in the score map, that language's score is multiplied by
`1.5` and a hint evidence line is appended. -/
def apply_hint (rc : String → String → Nat) (code : String) (filename : Option String) :
    List (String × ℚ × List String) :=
  match filename with
  | none => score_map rc code
  | some f =>
    if f = "" then score_map rc code
    else
      match get_extension_hint f with
      | none => score_map rc code
      | some h => (score_map rc code).map (hint_bonus f h)

/-- Python's `max(xs, key=val)` over a nonempty sequence: the first element
attaining the maximal `val`; `none` on the empty list (where Python would
raise).  Used for both `best_language` (line 559) and `best_framework`
(line 660). -/
def max_by_score {α : Type} (val : α → ℚ) : List α → Option α
  | [] => none
  | x :: xs => some (xs.foldl (fun best y => if val best < val y then y else best) x)

/-- Score of a `(name, score, evidence)` entry. -/
def entryVal : String × ℚ × List String → ℚ := fun x => x.2.1

/-- Loop `for pattern in patterns['patterns']` of `_detect_framework`
(guess_lexer.py lines 639-643). -/
def framework_pattern_loop (rc : String → String → Nat) (code : String) :
    List String → Nat × List String → Nat × List String
  | [], st => st
  | p :: rest, (pm, ev) =>
    let n := rc p code
    if 0 < n then
      framework_pattern_loop rc code rest (pm + n, ev ++ ["Framework pattern: " ++ p])
    else
      framework_pattern_loop rc code rest (pm, ev)

/-- Loop `for keyword in patterns['keywords']` of `_detect_framework`
(lines 646-650). -/
def framework_keyword_loop (code : String) :
    List String → Nat × List String → Nat × List String
  | [], st => st
  | k :: rest, (km, ev) =>
    if containsCI code k then
      framework_keyword_loop code rest (km + 1, ev ++ ["Framework keyword: " ++ k])
    else
      framework_keyword_loop code rest (km, ev)

/-- The body of the `for framework, patterns in ...` loop of
`_detect_framework` (guess_lexer.py lines 635-655) for one candidate
framework (ownership already checked): the `(score, evidence)` entry when at
least one pattern or keyword hit, `none` otherwise. -/
def framework_entry (rc : String → String → Nat) (code : String)
    (fp : String × FrameworkPatterns) : Option (String × ℚ × List String) :=
  let st1 := framework_pattern_loop rc code fp.2.patterns (0, [])
  let st2 := framework_keyword_loop code fp.2.keywords (0, st1.2)
  if 0 < st1.1 ∨ 0 < st2.1 then
    some (fp.1, ((st1.1 : ℚ) * (7/10) + (st2.1 : ℚ) * (3/10)) * fp.2.weight, st2.2)
  else none

/-- The framework score/evidence map built by `_detect_framework`
(guess_lexer.py lines 628-655): frameworks owned by `language` with at least
one pattern or keyword hit, scored `(pm * 0.7 + km * 0.3) * weight`. -/
def framework_score_map (rc : String → String → Nat) (code : String) (language : String) :
    List (String × ℚ × List String) :=
  (framework_patterns.filter (fun fp => fp.2.language = language)).filterMap
    (framework_entry rc code)

/-- `_detect_framework` (guess_lexer.py lines 626-663): best framework of the
detected language, with confidence `min(score / 5.0, 1.0)`. -/
def detect_framework (rc : String → String → Nat) (code : String) (language : String) :
    Option (String × ℚ × List String) :=
  match max_by_score entryVal (framework_score_map rc code language) with
  | none => none
  | some b => some (b.1, min (b.2.1 / 5) 1, b.2.2)

/-- `analyze_code` (guess_lexer.py lines 521-581). -/
def analyze_code (rc : String → String → Nat) (code : String) (filename : Option String) :
    DetectionResult :=
  if stripEmpty code then
    { language := "unknown", confidence := 0, framework := none, evidence := ["Empty code"] }
  else
    match max_by_score entryVal (apply_hint rc code filename) with
    | none =>
      { language := "unknown", confidence := 0, framework := none,
        evidence := ["No patterns matched"] }
    | some best =>
      let confidence : ℚ := min best.2.1 1
      match detect_framework rc code best.1 with
      | none =>
        { language := best.1, confidence := confidence, framework := none,
          evidence := best.2.2 }
      | some fr =>
        { language := best.1, confidence := min (confidence + fr.2.1 * (3/10)) 1,
          framework := some fr.1, evidence := best.2.2 ++ fr.2.2 }

/-! ## Spec-side closed forms (for the refinement claims about the Scorer) -/

/-- Spec §4.2 step 1/3: total number of regex matches over a list of
patterns. -/
def pattern_count (rc : String → String → Nat) (code : String) (pats : List String) : Nat :=
  (pats.map (fun p => rc p code)).sum

/-- Spec §4.2 step 2: number of keywords present in the text (each present
keyword counts exactly once, however often it occurs). -/
def keyword_count (code : String) (kws : List String) : Nat :=
  (kws.filter (fun k => containsCI code k)).length

/-- Modelled from the spec (§4.2 step 4): the language score in closed form,
`max(0, (pattern_matches * 0.6 + keyword_matches * 0.4) * weight
- anti_matches * 0.3)`. -/
def score_language_spec (rc : String → String → Nat) (code : String) (ps : LangPatterns) : ℚ :=
  max 0 (((pattern_count rc code ps.patterns : ℚ) * (6/10)
      + (keyword_count code ps.keywords : ℚ) * (4/10)) * ps.weight
    - (pattern_count rc code ps.anti_patterns : ℚ) * (3/10))

/-- Modelled from the spec (§4.4): one framework's raw score in closed form,
`(pattern_matches * 0.7 + keyword_matches * 0.3) * weight`, with no
anti-pattern penalty. -/
def framework_score_spec (rc : String → String → Nat) (code : String)
    (fp : FrameworkPatterns) : ℚ :=
  ((pattern_count rc code fp.patterns : ℚ) * (7/10)
    + (keyword_count code fp.keywords : ℚ) * (3/10)) * fp.weight

/-- Modelled from the spec (§4.4): framework stage in closed form — restrict
to frameworks owned by the winning language, score each, keep only positive
scores, pick the maximum (first on ties), confidence `min(score / 5, 1)`. -/
def detect_framework_spec (rc : String → String → Nat) (code : String) (language : String) :
    Option (String × ℚ) :=
  let kept := ((framework_patterns.filter (fun fp => fp.2.language = language)).map
      (fun fp => (fp.1, framework_score_spec rc code fp.2))).filter (fun x => 0 < x.2)
  (max_by_score Prod.snd kept).map (fun b => (b.1, min (b.2 / 5) 1))

/-! ## Concrete regex-count oracles used by witnesses and counterexamples -/

/-- The all-zero regex oracle: correct for any text on which none of the
table's regexes has a match.  The witness texts below contain no parentheses,
braces, `@`, `#`, `$`, `<`, `=`, `:` or structural keyword phrases, so every
one of the table's regexes has zero `re.findall` matches on them. -/
def rc0 : String → String → Nat := fun _ _ => 0

/-- Counterexample text for the extension-hint monotonicity claim.  Real
`re.findall` behaviour on this text (hand-checked): exactly four of the
table's regexes match, each once — go's `:=` (on the line `x := 1`) and
django's `models\.Model`, `render\s*\(` and `urlpatterns\s*=`; every other
language/anti/framework pattern requires a literal token (`def `, `(`
after an identifier, `@`, `<`, `#`, quote characters, …) that does not occur
here. -/
def cexText : String :=
  "elif lambda\ndjango models.Model\nurlpatterns = render(\nx := 1\n"

/-- The `re.findall` count oracle on `cexText` (zero elsewhere): the four
matching patterns listed at `cexText`, each with one match. -/
def rcC2 : String → String → Nat := fun p code =>
  if code = cexText then
    if p = ":=" then 1
    else if p = "models\\.Model" then 1
    else if p = "render\\s*\\(" then 1
    else if p = "urlpatterns\\s*=" then 1
    else 0
  else 0

/-! ## Compile-failure timing model (for the initialization-validation claim)

Python's `re.findall(pattern, code, flags)` compiles `pattern` at the call —
inside `_score_language` — so a malformed pattern raises `re.error` during
analysis.  `GuessLexer.__init__` (lines 34-37) only stores the three tables
and never calls `re.compile`.  Here compilation is made explicit: an oracle
`co : String → Option (String → Nat)` returns `none` when the pattern fails
to compile and otherwise the compiled pattern's match-count function. -/

/-- `re.findall` with explicit compilation: raises (returns `Except.error`)
when the pattern does not compile. -/
def findall_e (co : String → Option (String → Nat)) (p code : String) : Except String Nat :=
  match co p with
  | none => Except.error ("re.error: " ++ p)
  | some m => Except.ok (m code)

/-- `pattern_loop` with explicit compilation. -/
def pattern_loop_e (co : String → Option (String → Nat)) (code : String) :
    List String → Nat × List String → Except String (Nat × List String)
  | [], st => Except.ok st
  | p :: rest, (pm, ev) =>
    match findall_e co p code with
    | Except.error e => Except.error e
    | Except.ok n =>
      if 0 < n then
        pattern_loop_e co code rest
          (pm + n, ev ++ ["Pattern match: " ++ p ++ " (" ++ toString n ++ " times)"])
      else
        pattern_loop_e co code rest (pm, ev)

/-- `anti_pattern_loop` with explicit compilation. -/
def anti_pattern_loop_e (co : String → Option (String → Nat)) (code : String) :
    List String → Nat × List String → Except String (Nat × List String)
  | [], st => Except.ok st
  | a :: rest, (am, ev) =>
    match findall_e co a code with
    | Except.error e => Except.error e
    | Except.ok n =>
      if 0 < n then
        anti_pattern_loop_e co code rest
          (am + n, ev ++ ["Anti-pattern found: " ++ a ++ " (-" ++ toString n ++ ")"])
      else
        anti_pattern_loop_e co code rest (am, ev)

/-- `_score_language` with explicit compilation: the first non-compiling
pattern reached surfaces as an error — during scoring, not construction. -/
def score_language_e (co : String → Option (String → Nat)) (code : String) (ps : LangPatterns) :
    Except String (ℚ × List String) :=
  match pattern_loop_e co code ps.patterns (0, []) with
  | Except.error e => Except.error e
  | Except.ok st1 =>
    let st2 := keyword_loop code ps.keywords (0, st1.2)
    match anti_pattern_loop_e co code ps.anti_patterns (0, st2.2) with
    | Except.error e => Except.error e
    | Except.ok st3 =>
      Except.ok (max 0 (((st1.1 : ℚ) * (6/10) + (st2.1 : ℚ) * (4/10)) * ps.weight
        - (st3.1 : ℚ) * (3/10)), st3.2)

/-- `GuessLexer.__init__` (guess_lexer.py lines 34-37): it only assigns the
three static tables.  No regex is compiled, no exception can be raised, and
the result does not depend on the compile behaviour `co`. -/
def guessLexer_init (_co : String → Option (String → Nat)) :
    Except String (List (String × LangPatterns) × List (String × FrameworkPatterns)
      × List (String × List String)) :=
  Except.ok (language_patterns, framework_patterns, file_extensions)

/-- Every regex string appearing in the language and framework pattern
tables (patterns, anti-patterns and framework patterns). -/
def all_table_regexes : List String :=
  (language_patterns.map (fun lp => lp.2.patterns ++ lp.2.anti_patterns)).flatten
    ++ (framework_patterns.map (fun fp => fp.2.patterns)).flatten

/-- Modelled from the spec (§4.1, §7: "implementers should validate all regex
strings at initialization and fail fast with a configuration error if any
fail to compile"; the source `__init__` contains no such validation): an
initializer that checks every table regex and fails on a compile failure. -/
def init_validated (co : String → Option (String → Nat)) :
    Except String (List (String × LangPatterns) × List (String × FrameworkPatterns)
      × List (String × List String)) :=
  if all_table_regexes.all (fun p => (co p).isSome) then
    Except.ok (language_patterns, framework_patterns, file_extensions)
  else
    Except.error "configuration error: malformed regex in pattern table"

/-! ## Loop lemmas: the imperative accumulation loops compute the closed-form
counts -/

theorem pattern_loop_count (rc : String → String → Nat) (code : String)
    (l : List String) (pm : Nat) (ev : List String) :
    (pattern_loop rc code l (pm, ev)).1 = pm + pattern_count rc code l := by
  induction l generalizing pm ev with
  | nil => simp [pattern_loop, pattern_count]
  | cons p rest ih =>
    simp only [pattern_loop, pattern_count, List.map_cons, List.sum_cons]
    by_cases h : 0 < rc p code
    · simp only [if_pos h, ih]
      simp [pattern_count]; omega
    · have h0 : rc p code = 0 := by omega
      simp only [if_neg h, ih]
      simp [pattern_count, h0]

theorem keyword_loop_count (code : String) (l : List String) (km : Nat) (ev : List String) :
    (keyword_loop code l (km, ev)).1 = km + keyword_count code l := by
  induction l generalizing km ev with
  | nil => simp [keyword_loop, keyword_count]
  | cons k rest ih =>
    simp only [keyword_loop, keyword_count]
    by_cases h : containsCI code k
    · simp only [if_pos h, ih]
      simp [keyword_count, List.filter_cons, h]; omega
    · simp only [if_neg h, ih]
      simp [keyword_count, List.filter_cons, h]

theorem anti_pattern_loop_count (rc : String → String → Nat) (code : String)
    (l : List String) (am : Nat) (ev : List String) :
    (anti_pattern_loop rc code l (am, ev)).1 = am + pattern_count rc code l := by
  induction l generalizing am ev with
  | nil => simp [anti_pattern_loop, pattern_count]
  | cons a rest ih =>
    simp only [anti_pattern_loop, pattern_count, List.map_cons, List.sum_cons]
    by_cases h : 0 < rc a code
    · simp only [if_pos h, ih]
      simp [pattern_count]; omega
    · have h0 : rc a code = 0 := by omega
      simp only [if_neg h, ih]
      simp [pattern_count, h0]

theorem framework_pattern_loop_count (rc : String → String → Nat) (code : String)
    (l : List String) (pm : Nat) (ev : List String) :
    (framework_pattern_loop rc code l (pm, ev)).1 = pm + pattern_count rc code l := by
  induction l generalizing pm ev with
  | nil => simp [framework_pattern_loop, pattern_count]
  | cons p rest ih =>
    simp only [framework_pattern_loop, pattern_count, List.map_cons, List.sum_cons]
    by_cases h : 0 < rc p code
    · simp only [if_pos h, ih]
      simp [pattern_count]; omega
    · have h0 : rc p code = 0 := by omega
      simp only [if_neg h, ih]
      simp [pattern_count, h0]

theorem framework_keyword_loop_count (code : String) (l : List String) (km : Nat)
    (ev : List String) :
    (framework_keyword_loop code l (km, ev)).1 = km + keyword_count code l := by
  induction l generalizing km ev with
  | nil => simp [framework_keyword_loop, keyword_count]
  | cons k rest ih =>
    simp only [framework_keyword_loop, keyword_count]
    by_cases h : containsCI code k
    · simp only [if_pos h, ih]
      simp [keyword_count, List.filter_cons, h]; omega
    · simp only [if_neg h, ih]
      simp [keyword_count, List.filter_cons, h]

/-! ## Properties of `max_by_score` (Python `max(..., key=...)`) -/

theorem max_by_score_eq_none {α : Type} (val : α → ℚ) (l : List α) :
    max_by_score val l = none ↔ l = [] := by
  cases l <;> simp [max_by_score]

theorem foldl_max_cases {α : Type} (val : α → ℚ) (xs : List α) (b : α) :
    xs.foldl (fun best y => if val best < val y then y else best) b = b ∨
      xs.foldl (fun best y => if val best < val y then y else best) b ∈ xs := by
  induction xs generalizing b with
  | nil => left; rfl
  | cons x rest ih =>
    simp only [List.foldl_cons]
    rcases ih (if val b < val x then x else b) with h | h
    · rw [h]
      by_cases hc : val b < val x
      · right; rw [if_pos hc]; exact List.mem_cons_self x rest
      · left; rw [if_neg hc]
    · right; exact List.mem_cons_of_mem x h

theorem foldl_max_ge_init {α : Type} (val : α → ℚ) (xs : List α) (b : α) :
    val b ≤ val (xs.foldl (fun best y => if val best < val y then y else best) b) := by
  induction xs generalizing b with
  | nil => exact le_refl _
  | cons x rest ih =>
    simp only [List.foldl_cons]
    refine le_trans ?_ (ih (if val b < val x then x else b))
    by_cases hc : val b < val x
    · rw [if_pos hc]; exact le_of_lt hc
    · rw [if_neg hc]

theorem foldl_max_ge_mem {α : Type} (val : α → ℚ) (xs : List α) (b : α) (x : α)
    (hx : x ∈ xs) :
    val x ≤ val (xs.foldl (fun best y => if val best < val y then y else best) b) := by
  induction xs generalizing b with
  | nil => cases hx
  | cons y rest ih =>
    simp only [List.foldl_cons]
    rcases List.mem_cons.1 hx with rfl | hmem
    · refine le_trans ?_ (foldl_max_ge_init val rest (if val b < val x then x else b))
      by_cases hc : val b < val x
      · rw [if_pos hc]
      · rw [if_neg hc]; exact le_of_not_lt hc
    · exact ih _ hmem

theorem max_by_score_mem {α : Type} (val : α → ℚ) (l : List α) (b : α)
    (h : max_by_score val l = some b) : b ∈ l := by
  cases l with
  | nil => cases h
  | cons x rest =>
    simp only [max_by_score, Option.some.injEq] at h
    rcases foldl_max_cases val rest x with hc | hc
    · rw [h] at hc; rw [hc]; exact List.mem_cons_self x rest
    · rw [h] at hc; exact List.mem_cons_of_mem x hc

theorem max_by_score_ge {α : Type} (val : α → ℚ) (l : List α) (b : α)
    (h : max_by_score val l = some b) : ∀ x ∈ l, val x ≤ val b := by
  intro x hx
  cases l with
  | nil => cases hx
  | cons y rest =>
    simp only [max_by_score, Option.some.injEq] at h
    rw [← h]
    rcases List.mem_cons.1 hx with rfl | hmem
    · exact foldl_max_ge_init val rest x
    · exact foldl_max_ge_mem val rest y x hmem

theorem foldl_max_map {α β : Type} (val : α → ℚ) (val' : β → ℚ) (g : α → β)
    (hval : ∀ a, val' (g a) = val a) (xs : List α) (b : α) :
    (xs.map g).foldl (fun best y => if val' best < val' y then y else best) (g b) =
      g (xs.foldl (fun best y => if val best < val y then y else best) b) := by
  induction xs generalizing b with
  | nil => rfl
  | cons x rest ih =>
    simp only [List.map_cons, List.foldl_cons, hval]
    rw [← apply_ite g, ih]

theorem max_by_score_map {α β : Type} (val : α → ℚ) (val' : β → ℚ) (g : α → β)
    (hval : ∀ a, val' (g a) = val a) (l : List α) :
    max_by_score val' (l.map g) = (max_by_score val l).map g := by
  cases l with
  | nil => rfl
  | cons x rest =>
    simp only [max_by_score, List.map_cons]
    rw [foldl_max_map val val' g hval, Option.map_some']

theorem max_by_score_map_mono {α : Type} (val : α → ℚ) (f : α → α) (l : List α)
    (hmono : ∀ x ∈ l, val x ≤ val (f x)) (b b' : α)
    (hb : max_by_score val l = some b) (hb' : max_by_score val (l.map f) = some b') :
    val b ≤ val b' := by
  have hbmem : b ∈ l := max_by_score_mem val l b hb
  have hfb : f b ∈ l.map f := List.mem_map_of_mem f hbmem
  exact le_trans (hmono b hbmem) (max_by_score_ge val (l.map f) b' hb' (f b) hfb)

/-! ## Properties of the language score map and the extension hint -/

theorem score_map_pos (rc : String → String → Nat) (code : String) :
    ∀ x ∈ score_map rc code, 0 < x.2.1 := by
  intro x hx
  have := List.of_mem_filter hx
  simpa using this

theorem score_map_key_mem_table (rc : String → String → Nat) (code : String) :
    ∀ x ∈ score_map rc code, x.1 ∈ language_patterns.map Prod.fst := by
  intro x hx
  have hx' := List.mem_of_mem_filter hx
  rcases List.mem_map.1 hx' with ⟨lp, hlp, rfl⟩
  exact List.mem_map_of_mem Prod.fst hlp

theorem score_map_keys_nodup (rc : String → String → Nat) (code : String) :
    ((score_map rc code).map Prod.fst).Nodup := by
  have h1 : List.Sublist (score_map rc code)
      (language_patterns.map (fun lp => (lp.1, score_language rc code lp.2))) :=
    List.filter_sublist _
  have h2 := h1.map Prod.fst
  rw [List.map_map] at h2
  have hkeys : language_patterns.map (Prod.fst ∘ fun lp =>
      (lp.1, score_language rc code lp.2)) = language_patterns.map Prod.fst := by
    simp [Function.comp]
  rw [hkeys] at h2
  exact List.Nodup.sublist h2 (by decide)

theorem hint_bonus_fst (f h : String) (x : String × ℚ × List String) :
    (hint_bonus f h x).1 = x.1 := by
  unfold hint_bonus
  by_cases hc : x.1 = h
  · rw [if_pos hc]
  · rw [if_neg hc]

theorem apply_hint_cases (rc : String → String → Nat) (code : String)
    (filename : Option String) :
    apply_hint rc code filename = score_map rc code ∨
      ∃ f h, filename = some f ∧ f ≠ "" ∧ get_extension_hint f = some h ∧
        apply_hint rc code filename = (score_map rc code).map (hint_bonus f h) := by
  cases filename with
  | none => left; rfl
  | some f =>
    by_cases hf : f = ""
    · left; simp [apply_hint, hf]
    · cases hh : get_extension_hint f with
      | none => left; simp [apply_hint, hf, hh]
      | some h =>
        right
        exact ⟨f, h, rfl, hf, hh, by simp [apply_hint, hf, hh]⟩

theorem apply_hint_keys (rc : String → String → Nat) (code : String)
    (filename : Option String) :
    (apply_hint rc code filename).map Prod.fst = (score_map rc code).map Prod.fst := by
  rcases apply_hint_cases rc code filename with h | ⟨f, hh, _, _, _, h⟩
  · rw [h]
  · rw [h, List.map_map]
    exact List.map_congr_left (fun x _ => hint_bonus_fst f hh x)

theorem apply_hint_pos (rc : String → String → Nat) (code : String)
    (filename : Option String) :
    ∀ x ∈ apply_hint rc code filename, 0 < x.2.1 := by
  intro x hx
  rcases apply_hint_cases rc code filename with h | ⟨f, hh, _, _, _, h⟩
  · rw [h] at hx; exact score_map_pos rc code x hx
  · rw [h] at hx
    rcases List.mem_map.1 hx with ⟨y, hy, rfl⟩
    have hy0 : 0 < y.2.1 := score_map_pos rc code y hy
    unfold hint_bonus
    by_cases hc : y.1 = hh
    · rw [if_pos hc]; positivity
    · rw [if_neg hc]; exact hy0

theorem apply_hint_nil_iff (rc : String → String → Nat) (code : String)
    (filename : Option String) :
    apply_hint rc code filename = [] ↔ score_map rc code = [] := by
  constructor
  · intro h
    have := apply_hint_keys rc code filename
    rw [h] at this
    exact List.map_eq_nil_iff.1 this.symm
  · intro h
    have := apply_hint_keys rc code filename
    rw [h] at this
    simpa using List.map_eq_nil_iff.1 this

/-! ## `List.lookup` helpers -/

theorem lookup_mem {β : Type} (l : List (String × β)) (k : String) (v : β)
    (h : l.lookup k = some v) : (k, v) ∈ l := by
  induction l with
  | nil => cases h
  | cons a rest ih =>
    cases hbe : (k == a.1) with
    | true =>
      have hk : k = a.1 := by simpa using hbe
      simp only [List.lookup, hbe] at h
      have hv := Option.some.inj h
      rw [hk, ← hv]
      exact List.mem_cons_self a rest
    | false =>
      simp only [List.lookup, hbe] at h
      exact List.mem_cons_of_mem a (ih h)

theorem lookup_of_mem_nodup {β : Type} (l : List (String × β)) (k : String) (v : β)
    (hnd : (l.map Prod.fst).Nodup) (hmem : (k, v) ∈ l) : l.lookup k = some v := by
  induction l with
  | nil => cases hmem
  | cons a rest ih =>
    rw [List.map_cons, List.nodup_cons] at hnd
    rcases List.mem_cons.1 hmem with heq | hmem'
    · rw [← heq]
      simp [List.lookup]
    · have hk : ¬(k = a.1) := by
        intro hk
        exact hnd.1 (hk ▸ (List.mem_map_of_mem Prod.fst hmem' : (k, v).1 ∈ _))
      have hbe : (k == a.1) = false := by simpa using hk
      simp only [List.lookup, hbe]
      exact ih hnd.2 hmem'

theorem lookup_map_hint (l : List (String × ℚ × List String)) (f h : String) (k : String) :
    (l.map (hint_bonus f h)).lookup k =
      (l.lookup k).map (fun v =>
        if k = h then (v.1 * (3/2), v.2 ++ ["File extension hint: " ++ f]) else v) := by
  induction l with
  | nil => rfl
  | cons a rest ih =>
    obtain ⟨ka, va⟩ := a
    by_cases hc : ka = h
    · have hba : hint_bonus f h (ka, va) =
          (ka, va.1 * (3/2), va.2 ++ ["File extension hint: " ++ f]) := by
        unfold hint_bonus
        rw [if_pos hc]
      rw [List.map_cons, hba]
      cases hbe : (k == ka) with
      | true =>
        have hk : k = ka := by simpa using hbe
        simp only [List.lookup, hbe, Option.map_some']
        rw [if_pos (hk.trans hc)]
      | false =>
        simp only [List.lookup, hbe]
        exact ih
    · have hba : hint_bonus f h (ka, va) = (ka, va) := by
        unfold hint_bonus
        rw [if_neg hc]
      rw [List.map_cons, hba]
      cases hbe : (k == ka) with
      | true =>
        have hk : k = ka := by simpa using hbe
        simp only [List.lookup, hbe, Option.map_some']
        rw [if_neg (by rw [hk]; exact hc)]
      | false =>
        simp only [List.lookup, hbe]
        exact ih

/-! ## Scorer ↔ closed-form correspondence -/

theorem table_framework_weights_pos :
    ∀ fp ∈ framework_patterns, 0 < fp.2.weight := by decide


theorem framework_entry_char (rc : String → String → Nat) (code : String)
    (fp : String × FrameworkPatterns) (hw : 0 < fp.2.weight) :
    (framework_entry rc code fp).map (fun x => (x.1, x.2.1)) =
      if 0 < framework_score_spec rc code fp.2 then
        some (fp.1, framework_score_spec rc code fp.2)
      else none := by
  simp only [framework_entry]
  rw [framework_pattern_loop_count, framework_keyword_loop_count]
  simp only [Nat.zero_add]
  by_cases hcond : 0 < pattern_count rc code fp.2.patterns
      ∨ 0 < keyword_count code fp.2.keywords
  · have hpos : 0 < framework_score_spec rc code fp.2 := by
      unfold framework_score_spec
      have hbase : (0:ℚ) < (pattern_count rc code fp.2.patterns : ℚ) * (7/10)
          + (keyword_count code fp.2.keywords : ℚ) * (3/10) := by
        rcases hcond with hp | hk
        · have hp' : (0:ℚ) < (pattern_count rc code fp.2.patterns : ℚ) := by exact_mod_cast hp
          have hk' : (0:ℚ) ≤ (keyword_count code fp.2.keywords : ℚ) := by positivity
          nlinarith
        · have hk' : (0:ℚ) < (keyword_count code fp.2.keywords : ℚ) := by exact_mod_cast hk
          have hp' : (0:ℚ) ≤ (pattern_count rc code fp.2.patterns : ℚ) := by positivity
          nlinarith
      exact mul_pos hbase hw
    rw [if_pos hcond, if_pos hpos, Option.map_some']
    simp [framework_score_spec]
  · rw [if_neg hcond, Option.map_none']
    push_neg at hcond
    have hp0 : pattern_count rc code fp.2.patterns = 0 := by omega
    have hk0 : keyword_count code fp.2.keywords = 0 := by omega
    have hzero : framework_score_spec rc code fp.2 = 0 := by
      unfold framework_score_spec
      rw [hp0, hk0]
      norm_num
    rw [hzero, if_neg (lt_irrefl 0)]

theorem filterMap_framework_entry_char (rc : String → String → Nat) (code : String)
    (L : List (String × FrameworkPatterns)) (hw : ∀ fp ∈ L, 0 < fp.2.weight) :
    (L.filterMap (framework_entry rc code)).map (fun x => (x.1, x.2.1)) =
      (L.map (fun fp => (fp.1, framework_score_spec rc code fp.2))).filter
        (fun x => 0 < x.2) := by
  induction L with
  | nil => rfl
  | cons fp rest ih =>
    have hchar := framework_entry_char rc code fp (hw fp (List.mem_cons_self fp rest))
    have ih' := ih (fun q hq => hw q (List.mem_cons_of_mem fp hq))
    simp only [List.filterMap_cons, List.map_cons, List.filter_cons]
    cases hfe : framework_entry rc code fp with
    | none =>
      rw [hfe, Option.map_none'] at hchar
      by_cases hpos : 0 < framework_score_spec rc code fp.2
      · rw [if_pos hpos] at hchar
        cases hchar
      · rw [decide_eq_false hpos]
        simp only [Bool.false_eq_true, if_false]
        exact ih'
    | some e =>
      rw [hfe, Option.map_some'] at hchar
      by_cases hpos : 0 < framework_score_spec rc code fp.2
      · rw [if_pos hpos] at hchar
        have he := Option.some.inj hchar
        rw [decide_eq_true hpos, if_pos rfl, List.map_cons, he, ih']
      · rw [if_neg hpos] at hchar
        cases hchar

theorem framework_score_map_char (rc : String → String → Nat) (code : String)
    (language : String) :
    (framework_score_map rc code language).map (fun x => (x.1, x.2.1)) =
      ((framework_patterns.filter (fun fp => fp.2.language = language)).map
        (fun fp => (fp.1, framework_score_spec rc code fp.2))).filter (fun x => 0 < x.2) := by
  unfold framework_score_map
  exact filterMap_framework_entry_char rc code _
    (fun fp hfp => table_framework_weights_pos fp (List.mem_of_mem_filter hfp))

theorem framework_score_map_pos (rc : String → String → Nat) (code : String)
    (language : String) :
    ∀ x ∈ framework_score_map rc code language, 0 < x.2.1 := by
  intro x hx
  have hmem : (x.1, x.2.1) ∈ (framework_score_map rc code language).map
      (fun x => (x.1, x.2.1)) := List.mem_map_of_mem _ hx
  rw [framework_score_map_char] at hmem
  have := List.of_mem_filter hmem
  simpa using this

theorem framework_score_map_owner (rc : String → String → Nat) (code : String)
    (language : String) :
    ∀ x ∈ framework_score_map rc code language,
      ∃ fps, (x.1, fps) ∈ framework_patterns ∧ fps.language = language := by
  intro x hx
  rcases List.mem_filterMap.1 hx with ⟨fp, hfp, hfe⟩
  have hfp' : fp ∈ framework_patterns := List.mem_of_mem_filter hfp
  have hlang : fp.2.language = language := by
    have := List.of_mem_filter hfp
    simpa using this
  have hfst : x.1 = fp.1 := by
    simp only [framework_entry] at hfe
    by_cases hcond : 0 < (framework_pattern_loop rc code fp.2.patterns (0, [])).1
        ∨ 0 < (framework_keyword_loop code fp.2.keywords
            (0, (framework_pattern_loop rc code fp.2.patterns (0, [])).2)).1
    · rw [if_pos hcond] at hfe
      cases hfe
      rfl
    · rw [if_neg hcond] at hfe
      cases hfe
  exact ⟨fp.2, by rw [hfst]; exact hfp', hlang⟩

theorem detect_framework_conf (rc : String → String → Nat) (code : String)
    (language : String) (fr : String × ℚ × List String)
    (h : detect_framework rc code language = some fr) :
    0 ≤ fr.2.1 ∧ fr.2.1 ≤ 1 ∧
      ∃ fps, (fr.1, fps) ∈ framework_patterns ∧ fps.language = language := by
  unfold detect_framework at h
  cases hmax : max_by_score entryVal (framework_score_map rc code language) with
  | none => rw [hmax] at h; cases h
  | some b =>
    rw [hmax] at h
    have hb := Option.some.inj h
    have hbmem := max_by_score_mem entryVal _ b hmax
    have hbpos : 0 < b.2.1 := framework_score_map_pos rc code language b hbmem
    have howner := framework_score_map_owner rc code language b hbmem
    constructor
    · rw [← hb]
      have : (0:ℚ) ≤ b.2.1 / 5 := by positivity
      simp only []
      exact le_min this zero_le_one
    constructor
    · rw [← hb]
      exact min_le_right _ _
    · rw [← hb]
      exact howner

/-! ## Branch analysis of `analyze_code` -/

theorem analyze_code_cases (rc : String → String → Nat) (code : String)
    (filename : Option String) :
    (stripEmpty code = true ∧ analyze_code rc code filename =
      { language := "unknown", confidence := 0, framework := none,
        evidence := ["Empty code"] }) ∨
    (stripEmpty code = false ∧
      max_by_score entryVal (apply_hint rc code filename) = none ∧
      analyze_code rc code filename =
        { language := "unknown", confidence := 0, framework := none,
          evidence := ["No patterns matched"] }) ∨
    (∃ best, stripEmpty code = false ∧
      max_by_score entryVal (apply_hint rc code filename) = some best ∧
      ((detect_framework rc code best.1 = none ∧ analyze_code rc code filename =
          { language := best.1, confidence := min best.2.1 1, framework := none,
            evidence := best.2.2 }) ∨
        (∃ fr, detect_framework rc code best.1 = some fr ∧
          analyze_code rc code filename =
            { language := best.1,
              confidence := min (min best.2.1 1 + fr.2.1 * (3/10)) 1,
              framework := some fr.1, evidence := best.2.2 ++ fr.2.2 }))) := by
  by_cases hs : stripEmpty code = true
  · left
    refine ⟨hs, ?_⟩
    unfold analyze_code
    rw [if_pos hs]
  · have hs' : stripEmpty code = false := by simpa using hs
    right
    cases hmax : max_by_score entryVal (apply_hint rc code filename) with
    | none =>
      left
      refine ⟨hs', rfl, ?_⟩
      unfold analyze_code
      rw [if_neg hs, hmax]
    | some best =>
      right
      refine ⟨best, hs', rfl, ?_⟩
      cases hfr : detect_framework rc code best.1 with
      | none =>
        left
        refine ⟨rfl, ?_⟩
        unfold analyze_code
        rw [if_neg hs, hmax]
        simp only [hfr]
      | some fr =>
        right
        refine ⟨fr, rfl, ?_⟩
        unfold analyze_code
        rw [if_neg hs, hmax]
        simp only [hfr]

theorem apply_hint_key_mem_table (rc : String → String → Nat) (code : String)
    (filename : Option String) :
    ∀ x ∈ apply_hint rc code filename, x.1 ∈ language_patterns.map Prod.fst := by
  intro x hx
  have h1 : x.1 ∈ (apply_hint rc code filename).map Prod.fst :=
    List.mem_map_of_mem Prod.fst hx
  rw [apply_hint_keys] at h1
  rcases List.mem_map.1 h1 with ⟨y, hy, hfst⟩
  rw [← hfst]
  exact score_map_key_mem_table rc code y hy

/-! ## Claim theorems -/

/-- C1: for every regex-count oracle, input text and optional filename, the
confidence of the `DetectionResult` returned by `analyze_code` lies in the
closed interval `[0, 1]`. -/
theorem C1_confidence_in_unit_interval (rc : String → String → Nat) (code : String)
    (filename : Option String) :
    0 ≤ (analyze_code rc code filename).confidence ∧
      (analyze_code rc code filename).confidence ≤ 1 := by
  rcases analyze_code_cases rc code filename with ⟨_, heq⟩ | ⟨_, _, heq⟩ |
    ⟨best, _, hmax, hrest⟩
  · rw [heq]
    norm_num
  · rw [heq]
    norm_num
  · have hbestmem := max_by_score_mem entryVal _ best hmax
    have hbest : 0 < best.2.1 := apply_hint_pos rc code filename best hbestmem
    rcases hrest with ⟨_, heq⟩ | ⟨fr, hfr, heq⟩
    · rw [heq]
      exact ⟨le_min (le_of_lt hbest) zero_le_one, min_le_right _ _⟩
    · have hfrc := detect_framework_conf rc code best.1 fr hfr
      rw [heq]
      have h1 : (0:ℚ) ≤ min best.2.1 1 := le_min (le_of_lt hbest) zero_le_one
      have h2 : (0:ℚ) ≤ fr.2.1 * (3/10) := by nlinarith [hfrc.1]
      exact ⟨le_min (by linarith) zero_le_one, min_le_right _ _⟩

/-- C3: for every regex-count oracle, text and language pattern set, the
language Scorer's score equals
`max(0, (pattern_matches * 0.6 + keyword_matches * 0.4) * weight
- anti_matches * 0.3)`, where `pattern_matches` sums the oracle's match
counts over all patterns, `keyword_matches` counts each keyword present as a
case-insensitive substring of the whole text exactly once however often it
occurs, and `anti_matches` sums the match counts of the anti-patterns. -/
theorem C3_score_language_formula (rc : String → String → Nat) (code : String)
    (ps : LangPatterns) :
    (score_language rc code ps).1 = score_language_spec rc code ps := by
  simp only [score_language, score_language_spec]
  rw [pattern_loop_count, keyword_loop_count, anti_pattern_loop_count]
  simp

/-- C6: for every regex-count oracle, text and winning language, the
framework stage equals its spec-side closed form: no anti-pattern penalty,
candidate scores `(pattern_matches * 0.7 + keyword_matches * 0.3) * weight`,
only positive scores kept, maximum picked (first on ties), and framework
confidence `min(best_score / 5, 1)`. -/
theorem C6_detect_framework_matches_spec (rc : String → String → Nat) (code : String)
    (language : String) :
    (detect_framework rc code language).map (fun b => (b.1, b.2.1)) =
      detect_framework_spec rc code language := by
  simp only [detect_framework, detect_framework_spec]
  rw [← framework_score_map_char]
  rw [max_by_score_map entryVal Prod.snd (fun x => (x.1, x.2.1)) (fun a => rfl)]
  cases max_by_score entryVal (framework_score_map rc code language) with
  | none => rfl
  | some b => rfl

/-- C10: for every regex-count oracle, text and optional filename, if the
detected language is not the sentinel `"unknown"` then the confidence is
strictly positive. -/
theorem C10_detected_language_positive_confidence (rc : String → String → Nat)
    (code : String) (filename : Option String)
    (h : (analyze_code rc code filename).language ≠ "unknown") :
    0 < (analyze_code rc code filename).confidence := by
  rcases analyze_code_cases rc code filename with ⟨_, heq⟩ | ⟨_, _, heq⟩ |
    ⟨best, _, hmax, hrest⟩
  · rw [heq] at h
    exact absurd rfl h
  · rw [heq] at h
    exact absurd rfl h
  · have hbestmem := max_by_score_mem entryVal _ best hmax
    have hbest : 0 < best.2.1 := apply_hint_pos rc code filename best hbestmem
    rcases hrest with ⟨_, heq⟩ | ⟨fr, hfr, heq⟩
    · rw [heq]
      exact lt_min hbest one_pos
    · have hfrc := detect_framework_conf rc code best.1 fr hfr
      rw [heq]
      have h1 : (0:ℚ) < min best.2.1 1 := lt_min hbest one_pos
      have h2 : (0:ℚ) ≤ fr.2.1 * (3/10) := by nlinarith [hfrc.1]
      exact lt_min (by linarith) one_pos

/-- Witness for C10 at a concrete input: on the text `"elif"` (one python
keyword, no regex matches) the detected language is `"python"` and the
confidence is `0.4 > 0`. -/
theorem C10_witness :
    (analyze_code rc0 "elif" none).language ≠ "unknown" ∧
      0 < (analyze_code rc0 "elif" none).confidence :=
  ⟨by decide, C10_detected_language_positive_confidence rc0 "elif" none (by decide)⟩

/-- C4: `analyze_code` returns language `"unknown"` iff the input is
empty/whitespace-only or no language scored `> 0`; in the first case the
result is exactly `("unknown", 0.0, -, ["Empty code"])` (short-circuited
before any scoring), in the second exactly
`("unknown", 0.0, -, ["No patterns matched"])`. -/
theorem C4_unknown_characterization (rc : String → String → Nat) (code : String)
    (filename : Option String) :
    ((analyze_code rc code filename).language = "unknown" ↔
      (stripEmpty code = true ∨ score_map rc code = [])) ∧
    (stripEmpty code = true →
      analyze_code rc code filename =
        { language := "unknown", confidence := 0, framework := none,
          evidence := ["Empty code"] }) ∧
    (stripEmpty code = false → score_map rc code = [] →
      analyze_code rc code filename =
        { language := "unknown", confidence := 0, framework := none,
          evidence := ["No patterns matched"] }) := by
  rcases analyze_code_cases rc code filename with ⟨hs, heq⟩ | ⟨hs, hmax, heq⟩ |
    ⟨best, hs, hmax, hrest⟩
  · refine ⟨⟨fun _ => Or.inl hs, fun _ => by rw [heq]⟩, fun _ => heq, fun hs' _ => ?_⟩
    rw [hs] at hs'
    cases hs'
  · have hsm : score_map rc code = [] :=
      (apply_hint_nil_iff rc code filename).1 ((max_by_score_eq_none entryVal _).1 hmax)
    refine ⟨⟨fun _ => Or.inr hsm, fun _ => by rw [heq]⟩, fun hs' => ?_, fun _ _ => heq⟩
    rw [hs] at hs'
    cases hs'
  · have hlang : (analyze_code rc code filename).language = best.1 := by
      rcases hrest with ⟨_, heq⟩ | ⟨fr, _, heq⟩ <;> rw [heq]
    have hkey := apply_hint_key_mem_table rc code filename best
      (max_by_score_mem entryVal _ best hmax)
    have hne : best.1 ≠ "unknown" := by
      intro habs
      rw [habs] at hkey
      exact absurd hkey (by decide)
    refine ⟨⟨fun h => ?_, fun h => ?_⟩, fun hs' => ?_, fun _ hsm => ?_⟩
    · rw [hlang] at h
      exact absurd h hne
    · rcases h with h | h
      · rw [hs] at h
        cases h
      · have hnone : max_by_score entryVal (apply_hint rc code filename) = none :=
          (max_by_score_eq_none entryVal _).2 ((apply_hint_nil_iff rc code filename).2 h)
        rw [hnone] at hmax
        cases hmax
    · rw [hs'] at hs
      cases hs
    · have hnone : max_by_score entryVal (apply_hint rc code filename) = none :=
        (max_by_score_eq_none entryVal _).2 ((apply_hint_nil_iff rc code filename).2 hsm)
      rw [hnone] at hmax
      cases hmax

/-- Witness for C4 at concrete inputs: a whitespace-only text yields the
`"Empty code"` sentinel result, and a text matching nothing yields the
`"No patterns matched"` sentinel result. -/
theorem C4_witness :
    stripEmpty "   " = true ∧
    analyze_code rc0 "   " none =
      { language := "unknown", confidence := 0, framework := none,
        evidence := ["Empty code"] } ∧
    stripEmpty "zq zq" = false ∧ score_map rc0 "zq zq" = [] ∧
    analyze_code rc0 "zq zq" none =
      { language := "unknown", confidence := 0, framework := none,
        evidence := ["No patterns matched"] } :=
  ⟨by decide, (C4_unknown_characterization rc0 "   " none).2.1 (by decide), by decide,
    by decide, (C4_unknown_characterization rc0 "zq zq" none).2.2 (by decide) (by decide)⟩

/-- C5: whenever the returned `framework` field is non-null, the owning
language declared in that framework's pattern set equals the returned
`language` field. -/
theorem C5_framework_owner_matches_language (rc : String → String → Nat) (code : String)
    (filename : Option String) (fw : String)
    (h : (analyze_code rc code filename).framework = some fw) :
    ∃ fps, (fw, fps) ∈ framework_patterns ∧
      fps.language = (analyze_code rc code filename).language := by
  rcases analyze_code_cases rc code filename with ⟨_, heq⟩ | ⟨_, _, heq⟩ |
    ⟨best, _, hmax, hrest⟩
  · rw [heq] at h
    cases h
  · rw [heq] at h
    cases h
  · rcases hrest with ⟨_, heq⟩ | ⟨fr, hfr, heq⟩
    · rw [heq] at h
      cases h
    · rw [heq] at h ⊢
      have hfw : fr.1 = fw := Option.some.inj h
      rcases (detect_framework_conf rc code best.1 fr hfr).2.2 with ⟨fps, hmem, hlang⟩
      exact ⟨fps, by rw [← hfw]; exact hmem, hlang⟩

/-- Witness for C5 at a concrete input: on a keyword-only django-flavoured
text the result is `python`/`django`, and the django pattern set's owning
language is indeed the returned language. -/
theorem C5_witness :
    (analyze_code rc0 "lambda yield elif django models" none).framework = some "django" ∧
    ∃ fps, ("django", fps) ∈ framework_patterns ∧
      fps.language = (analyze_code rc0 "lambda yield elif django models" none).language :=
  ⟨by decide, C5_framework_owner_matches_language rc0 "lambda yield elif django models"
    none "django" (by decide)⟩

/-- C7: when the language stage selected `best` (text not whitespace-only),
the final result fuses the framework stage exactly as the code does: with a
positively-scoring framework `fr` the confidence is
`min(min(best_score, 1) + framework_confidence * 0.3, 1)` and the evidence is
the language evidence followed by the framework evidence; with no framework
the framework field is absent and the confidence stays
`min(best_score, 1)`. -/
theorem C7_fusion_confidence (rc : String → String → Nat) (code : String)
    (filename : Option String) (best : String × ℚ × List String)
    (hs : stripEmpty code = false)
    (hmax : max_by_score entryVal (apply_hint rc code filename) = some best) :
    (detect_framework rc code best.1 = none →
      analyze_code rc code filename =
        { language := best.1, confidence := min best.2.1 1, framework := none,
          evidence := best.2.2 }) ∧
    (∀ fr, detect_framework rc code best.1 = some fr →
      analyze_code rc code filename =
        { language := best.1,
          confidence := min (min best.2.1 1 + fr.2.1 * (3/10)) 1,
          framework := some fr.1, evidence := best.2.2 ++ fr.2.2 }) := by
  rcases analyze_code_cases rc code filename with ⟨hs', _⟩ | ⟨_, hmax', _⟩ |
    ⟨b, _, hmax', hrest⟩
  · rw [hs] at hs'
    cases hs'
  · rw [hmax] at hmax'
    cases hmax'
  · rw [hmax] at hmax'
    have hb : best = b := Option.some.inj hmax'
    subst hb
    constructor
    · intro hfr
      rcases hrest with ⟨_, heq⟩ | ⟨fr, hfr', _⟩
      · exact heq
      · rw [hfr] at hfr'
        cases hfr'
    · intro fr hfr
      rcases hrest with ⟨hfr', _⟩ | ⟨fr', hfr', heq⟩
      · rw [hfr] at hfr'
        cases hfr'
      · rw [hfr] at hfr'
        have : fr = fr' := Option.some.inj hfr'
        subst this
        exact heq

/-- Witness for C7 at a concrete input: on the django-flavoured text the
language stage selects python with score `1.2`, the framework stage scores
django at confidence `0.144 = 18/125`, and the fused confidence is
`min(min(1.2, 1) + 0.144 * 0.3, 1) = 1` with combined evidence. -/
theorem C7_witness :
    stripEmpty "lambda yield elif django models" = false ∧
    max_by_score entryVal (apply_hint rc0 "lambda yield elif django models" none) =
      some ("python", 6/5, ["Keyword found: elif", "Keyword found: lambda",
        "Keyword found: yield"]) ∧
    detect_framework rc0 "lambda yield elif django models" "python" =
      some ("django", 18/125, ["Framework keyword: django", "Framework keyword: models"]) ∧
    analyze_code rc0 "lambda yield elif django models" none =
      { language := "python", confidence := 1, framework := some "django",
        evidence := ["Keyword found: elif", "Keyword found: lambda", "Keyword found: yield",
          "Framework keyword: django", "Framework keyword: models"] } := by
  refine ⟨by decide, by decide, by decide, ?_⟩
  have h := (C7_fusion_confidence rc0 "lambda yield elif django models" none
    ("python", 6/5, ["Keyword found: elif", "Keyword found: lambda", "Keyword found: yield"])
    (by decide) (by decide)).2
    ("django", 18/125, ["Framework keyword: django", "Framework keyword: models"])
    (by decide)
  exact h.trans (by decide)

theorem lookup_none_not_mem {β : Type} (l : List (String × β)) (k : String)
    (hnone : l.lookup k = none) : ∀ x ∈ l, x.1 ≠ k := by
  induction l with
  | nil => intro x hx; cases hx
  | cons a rest ih =>
    intro x hx
    cases hbe : (k == a.1) with
    | true =>
      simp only [List.lookup, hbe] at hnone
      cases hnone
    | false =>
      simp only [List.lookup, hbe] at hnone
      rcases List.mem_cons.1 hx with rfl | hmem
      · intro habs
        rw [habs] at hbe
        simp at hbe
      · exact ih hnone x hmem

/-- C8: when the supplied filename's (lowercased) extension maps to a
language, the hint multiplies exactly that language's score by `1.5` and
appends one filename-hint evidence line to that language's evidence, leaving
every other entry untouched and adding no new language; a language that
scored `0` is not in the score map at all (every score-map entry is
positive), so it can never be promoted by the hint alone. -/
theorem C8_extension_hint_semantics (rc : String → String → Nat) (code : String)
    (f h : String) (hget : get_extension_hint f = some h) :
    (∀ s ev, (score_map rc code).lookup h = some (s, ev) →
      (apply_hint rc code (some f)).lookup h =
          some (s * (3/2), ev ++ ["File extension hint: " ++ f]) ∧
        (∀ k, k ≠ h →
          (apply_hint rc code (some f)).lookup k = (score_map rc code).lookup k) ∧
        (apply_hint rc code (some f)).map Prod.fst = (score_map rc code).map Prod.fst) ∧
    ((score_map rc code).lookup h = none →
      apply_hint rc code (some f) = score_map rc code) ∧
    (∀ x ∈ score_map rc code, 0 < x.2.1) := by
  have hf : f ≠ "" := by
    intro hf0
    have hemp : get_extension_hint "" = none := by decide
    rw [hf0, hemp] at hget
    cases hget
  have happ : apply_hint rc code (some f) = (score_map rc code).map (hint_bonus f h) := by
    simp only [apply_hint]
    rw [if_neg hf, hget]
  refine ⟨fun s ev hlook => ⟨?_, fun k hk => ?_, apply_hint_keys rc code (some f)⟩,
    fun hnone => ?_, score_map_pos rc code⟩
  · rw [happ, lookup_map_hint, hlook, Option.map_some', if_pos rfl]
  · rw [happ, lookup_map_hint]
    cases (score_map rc code).lookup k with
    | none => rfl
    | some v =>
      rw [Option.map_some', if_neg hk]
  · rw [happ]
    have hid : ∀ x ∈ score_map rc code, hint_bonus f h x = x := by
      intro x hx
      unfold hint_bonus
      rw [if_neg (lookup_none_not_mem _ h hnone x hx)]
    rw [List.map_congr_left hid]
    exact List.map_id _

/-- Witness for C8 at a concrete input: `"x.py"` maps to python, which is in
the score map of `"lambda yield"` with score `0.8`; the hint multiplies it to
`1.2` and appends the hint evidence line, preserving the key list. -/
theorem C8_witness :
    get_extension_hint "x.py" = some "python" ∧
    (score_map rc0 "lambda yield").lookup "python" =
      some (4/5, ["Keyword found: lambda", "Keyword found: yield"]) ∧
    (apply_hint rc0 "lambda yield" (some "x.py")).lookup "python" =
      some ((4/5) * (3/2), ["Keyword found: lambda", "Keyword found: yield"] ++
        ["File extension hint: x.py"]) ∧
    (apply_hint rc0 "lambda yield" (some "x.py")).map Prod.fst =
      (score_map rc0 "lambda yield").map Prod.fst :=
  ⟨by decide, by decide,
    ((C8_extension_hint_semantics rc0 "lambda yield" "x.py" "python" (by decide)).1
      (4/5) ["Keyword found: lambda", "Keyword found: yield"] (by decide)).1,
    ((C8_extension_hint_semantics rc0 "lambda yield" "x.py" "python" (by decide)).1
      (4/5) ["Keyword found: lambda", "Keyword found: yield"] (by decide)).2.2⟩

/-- C2 (amended): fix a text whose score map gives language `L` score
`S > 0`, and a filename `f` whose extension maps to `L`.  Then (a) the
language-stage confidence `min(winning_score, 1)` with the hint is at least
the language-stage confidence without it, and (b) the winner with the hint is
never `L` when some language `K` had `score(K) > 1.5 * S` before the hint.
(The original claim's stronger conclusion — that the final fused confidence
is monotone — is false: the hint can flip the winner to a language with a
smaller framework bonus, see the counterexample.) -/
theorem C2_extension_hint_language_stage (rc : String → String → Nat) (code : String)
    (f L : String) (S : ℚ) (evL : List String)
    (hget : get_extension_hint f = some L)
    (hlook : (score_map rc code).lookup L = some (S, evL))
    (hS : 0 < S) :
    (∀ b b', max_by_score entryVal (score_map rc code) = some b →
      max_by_score entryVal (apply_hint rc code (some f)) = some b' →
      min (entryVal b) 1 ≤ min (entryVal b') 1) ∧
    (∀ K SK evK b', (score_map rc code).lookup K = some (SK, evK) →
      (3/2) * S < SK →
      max_by_score entryVal (apply_hint rc code (some f)) = some b' →
      b'.1 ≠ L) := by
  have hf : f ≠ "" := by
    intro hf0
    have hemp : get_extension_hint "" = none := by decide
    rw [hf0, hemp] at hget
    cases hget
  have happ : apply_hint rc code (some f) = (score_map rc code).map (hint_bonus f L) := by
    simp only [apply_hint]
    rw [if_neg hf, hget]
  constructor
  · intro b b' hb hb'
    rw [happ] at hb'
    have hmono : ∀ x ∈ score_map rc code, entryVal x ≤ entryVal (hint_bonus f L x) := by
      intro x hx
      have hxpos := score_map_pos rc code x hx
      unfold hint_bonus entryVal
      by_cases hc : x.1 = L
      · rw [if_pos hc]
        nlinarith
      · rw [if_neg hc]
    exact min_le_min (max_by_score_map_mono entryVal (hint_bonus f L) _ hmono b b' hb hb')
      le_rfl
  · intro K SK evK b' hlookK hgt hb'
    have hKmem : (K, SK, evK) ∈ score_map rc code := lookup_mem _ K (SK, evK) hlookK
    have hKL : K ≠ L := by
      intro hKL
      rw [hKL, hlook] at hlookK
      have hv := Option.some.inj hlookK
      have hSK : SK = S := (congrArg Prod.fst hv).symm
      rw [hSK] at hgt
      nlinarith
    rw [happ] at hb'
    have hge := max_by_score_ge entryVal _ b' hb' (hint_bonus f L (K, SK, evK))
      (List.mem_map_of_mem _ hKmem)
    have hKval : entryVal (hint_bonus f L (K, SK, evK)) = SK := by
      unfold hint_bonus
      rw [if_neg (by exact hKL : ((K, SK, evK) : String × ℚ × List String).1 ≠ L)]
      rfl
    have hlookL' : ((score_map rc code).map (hint_bonus f L)).lookup L =
        some (S * (3/2), evL ++ ["File extension hint: " ++ f]) := by
      rw [lookup_map_hint, hlook, Option.map_some', if_pos rfl]
    intro hb'L
    have hnd : (((score_map rc code).map (hint_bonus f L)).map Prod.fst).Nodup := by
      have h1 := apply_hint_keys rc code (some f)
      rw [happ] at h1
      rw [h1]
      exact score_map_keys_nodup rc code
    have hb'mem := max_by_score_mem entryVal _ b' hb'
    have hlookb' : ((score_map rc code).map (hint_bonus f L)).lookup b'.1 = some b'.2 :=
      lookup_of_mem_nodup _ b'.1 b'.2 hnd hb'mem
    rw [hb'L, hlookL'] at hlookb'
    have hval : b'.2 = (S * (3/2), evL ++ ["File extension hint: " ++ f]) :=
      (Option.some.inj hlookb').symm
    have hb'val : entryVal b' = S * (3/2) := by
      unfold entryVal
      rw [hval]
    rw [hKval, hb'val] at hge
    linarith

/-- C2 (counterexample to the claim as stated): on `cexText`, language go
scores `S = 0.6 > 0` with no hint and `"x.go"` maps to go, yet supplying the
filename *lowers* the confidence from `1` to `0.9`: without the hint python
wins (score `0.8`) and django's framework bonus caps the fused confidence at
`1`; the hint lifts go to `0.9`, which overtakes python, and go has no
frameworks, so the final confidence drops.  This refutes the claimed
monotonic non-decrease of the returned confidence. -/
theorem C2_counterexample :
    (score_map rcC2 cexText).lookup "go" =
      some (3/5, ["Pattern match: := (1 times)"]) ∧
    (0:ℚ) < 3/5 ∧
    get_extension_hint "x.go" = some "go" ∧
    (analyze_code rcC2 cexText none).language = "python" ∧
    (analyze_code rcC2 cexText none).confidence = 1 ∧
    (analyze_code rcC2 cexText (some "x.go")).language = "go" ∧
    (analyze_code rcC2 cexText (some "x.go")).confidence = 9/10 ∧
    ¬((analyze_code rcC2 cexText none).confidence ≤
        (analyze_code rcC2 cexText (some "x.go")).confidence) := by
  decide

/-- Witness for the amended C2 on the same concrete data: the language-stage
confidence is monotone (`min(0.8, 1) = 0.8` without the hint versus
`min(0.9, 1) = 0.9` with it) even though the final fused confidence
decreases. -/
theorem C2_amended_witness :
    get_extension_hint "x.go" = some "go" ∧
    (score_map rcC2 cexText).lookup "go" =
      some (3/5, ["Pattern match: := (1 times)"]) ∧
    min (entryVal ("python", 4/5, ["Keyword found: elif", "Keyword found: lambda"])) 1 ≤
      min (entryVal ("go", 9/10,
        ["Pattern match: := (1 times)", "File extension hint: x.go"])) 1 :=
  ⟨by decide, by decide,
    (C2_extension_hint_language_stage rcC2 cexText "x.go" "go" (3/5)
      ["Pattern match: := (1 times)"] (by decide) (by decide) (by decide)).1
      ("python", 4/5, ["Keyword found: elif", "Keyword found: lambda"])
      ("go", 9/10, ["Pattern match: := (1 times)", "File extension hint: x.go"])
      (by decide) (by decide)⟩

theorem pattern_loop_e_error (co : String → Option (String → Nat)) (code : String)
    (l : List String) (hfail : ∃ p ∈ l, co p = none) :
    ∀ st, ∃ e, pattern_loop_e co code l st = Except.error e := by
  induction l with
  | nil =>
    rcases hfail with ⟨p, hp, _⟩
    cases hp
  | cons q rest ih =>
    intro st
    obtain ⟨pm, ev⟩ := st
    cases hco : co q with
    | none =>
      exact ⟨"re.error: " ++ q, by simp [pattern_loop_e, findall_e, hco]⟩
    | some m =>
      rcases hfail with ⟨p, hp, hpn⟩
      rcases List.mem_cons.1 hp with rfl | hprest
      · rw [hco] at hpn
        cases hpn
      · have ih' := ih ⟨p, hprest, hpn⟩
        simp only [pattern_loop_e, findall_e, hco]
        by_cases h0 : 0 < m code
        · rw [if_pos h0]
          exact ih' _
        · rw [if_neg h0]
          exact ih' _

theorem score_language_e_error (co : String → Option (String → Nat)) (code : String)
    (ps : LangPatterns) (hfail : ∃ p ∈ ps.patterns, co p = none) :
    ∃ e, score_language_e co code ps = Except.error e := by
  obtain ⟨e, he⟩ := pattern_loop_e_error co code ps.patterns hfail (0, [])
  exact ⟨e, by simp [score_language_e, he]⟩

/-- C9 (counterexample to the claim as stated): under a compile behaviour in
which *every* regex fails to compile, the source `__init__` still constructs
the engine successfully (it stores the raw tables and compiles nothing),
whereas the spec-modelled validating initializer fails with a configuration
error; the compile failure instead surfaces at analysis time, when
`_score_language` reaches python's first pattern via `re.findall`. -/
theorem C9_counterexample :
    guessLexer_init (fun _ => none) =
      Except.ok (language_patterns, framework_patterns, file_extensions) ∧
    init_validated (fun _ => none) =
      Except.error "configuration error: malformed regex in pattern table" ∧
    (language_patterns.lookup "python").map
        (fun ps => score_language_e (fun _ => none) "print: hello" ps) =
      some (Except.error "re.error: ^\\s*def\\s+\\w+\\s*\\(") := by
  refine ⟨rfl, rfl, rfl⟩

/-- C9 (amended): construction never validates or compiles any regex — it
succeeds for every compile behaviour — and regex compilation is deferred to
analysis time: a pattern set containing a non-compiling pattern makes the
scorer (hence the first analysis call that reaches it) raise, not the
constructor. -/
theorem C9_init_defers_compilation :
    (∀ co, guessLexer_init co =
      Except.ok (language_patterns, framework_patterns, file_extensions)) ∧
    (∀ co code ps, (∃ p ∈ ps.patterns, co p = none) →
      ∃ e, score_language_e co code ps = Except.error e) :=
  ⟨fun _ => rfl, fun co code ps hfail => score_language_e_error co code ps hfail⟩

/-- Witness for the amended C9: the (genuinely malformed) regex `\w+(` fails
to compile; the scorer on a pattern set containing it raises at scoring time,
while construction succeeded for the same compile behaviour. -/
theorem C9_witness :
    ((fun _ => (none : Option (String → Nat))) "\\w+(" = none) ∧
    (∃ e, score_language_e (fun _ => none) "zq"
      { keywords := [], patterns := ["\\w+("], anti_patterns := [], weight := 1 } =
        Except.error e) :=
  ⟨rfl, C9_init_defers_compilation.2 (fun _ => none) "zq"
    { keywords := [], patterns := ["\\w+("], anti_patterns := [], weight := 1 }
    ⟨"\\w+(", by simp, rfl⟩⟩
